import Mathlib

/- Verification development for src/database_frontend.py (a single-file
   Streamlit app that translates a natural-language question to SQL over an
   SSH tunnel and executes it).

   Strings are modelled as List Char.  Python string primitives are modelled
   at the ASCII level: str.strip() and the regex whitespace class are taken
   to be the six ASCII whitespace characters, and re.IGNORECASE is taken to
   be ASCII case folding.  Every concrete input appearing below is ASCII. -/

namespace DatabaseFrontend

deriving instance DecidableEq for Except

/-- ASCII whitespace: the common core of Python str.strip() and of the
regex whitespace class. -/
def isWs (c : Char) : Bool :=
  c == ' ' || c == '\t' || c == '\n' || c == '\r' || c == '\x0b' || c == '\x0c'

/-- Python str.strip(): drop leading and trailing whitespace. -/
def strip (l : List Char) : List Char :=
  ((l.dropWhile isWs).reverse.dropWhile isWs).reverse

/-- Fuel-indexed worker for removeAll; the fuel is the length of the
string, which suffices for any non-empty pattern. -/
def removeAllAux : Nat → List Char → List Char → List Char
  | 0, _, s => s
  | _ + 1, _, [] => []
  | fuel + 1, pat, c :: cs =>
    if pat.isPrefixOf (c :: cs) then
      removeAllAux fuel pat (List.drop pat.length (c :: cs))
    else
      c :: removeAllAux fuel pat cs

/-- Python s.replace(pat, "") for a non-empty pattern: delete the
non-overlapping occurrences, scanning left to right and continuing right
after each deleted occurrence (no rescan of the part already passed). -/
def removeAll (pat s : List Char) : List Char := removeAllAux s.length pat s

/-- ASCII case folding used to model re.IGNORECASE. -/
def lowerChar (c : Char) : Char :=
  if 'A' ≤ c ∧ c ≤ 'Z' then Char.ofNat (c.toNat + 32) else c

/-- Case-insensitive match of a (lowercase) literal pattern against a
prefix of the text, modelling a literal inside a re.IGNORECASE pattern. -/
def matchCI : List Char → List Char → Bool
  | [], _ => true
  | _ :: _, [] => false
  | p :: ps, c :: cs => lowerChar c == p && matchCI ps cs

/-- The opening delimiter literal of the regex on lines 88/118: three
backticks followed by the letters s, q, l. -/
def openPat : List Char := "```sql".data

/-- The closing delimiter literal of the regex; the same three-character
string is also the target of the first replace call on line 91. -/
def closePat : List Char := "```".data

/-- The literal removed, case-sensitively, by the second replace call on
line 91. -/
def sqlPat : List Char := "sql".data

/-- The text up to (excluding) the first occurrence of the closing triple
backtick; none when no closing delimiter occurs.  This is where the lazy
group of the regex ends. -/
def splitAtClose : List Char → Option (List Char)
  | [] => none
  | c :: cs =>
    if matchCI closePat (c :: cs) then some []
    else (splitAtClose cs).map (c :: ·)

/-- re.search on lines 88/118 (DOTALL, IGNORECASE): the leftmost occurrence
of the opening delimiter that is followed by a closing delimiter; returns
the raw text strictly between the two delimiters.  The boundary whitespace
consumed by the regex is not removed here: the caller strips the group,
which yields the same candidate string. -/
def findFenceInner : List Char → Option (List Char)
  | [] => none
  | c :: cs =>
    if matchCI openPat (c :: cs) then
      match splitAtClose (List.drop 5 cs) with
      | some inner => some inner
      | none => findFenceInner cs
    else findFenceInner cs

/-- Lines 89/119: the fenced group stripped when a fenced block is found,
otherwise the whole response text stripped. -/
def fenceCandidate (s : List Char) : List Char :=
  match findFenceInner s with
  | some inner => strip inner
  | none => strip s

/-- Does the string end with a semicolon (Python s.endswith on line 92/121)? -/
def endsWithSemi (s : List Char) : Bool := s.getLast? == some ';'

/-- Lines 92-93 and 121-122: append one semicolon when the string does not
already end with one. -/
def ensureSemi (s : List Char) : List Char :=
  if endsWithSemi s then s else s ++ [';']

/-- Lines 88-93: the extraction applied to the first model response:
fenced-block search, strip, replace of the triple backtick, replace of the
lowercase literal sql, strip again, then the semicolon terminator. -/
def extractInitial (s : List Char) : List Char :=
  ensureSemi (strip (removeAll sqlPat (removeAll closePat (fenceCandidate s))))

/-- Lines 118-122: the extraction applied to the retry response.  The
source has no replace calls and no second strip on this path. -/
def extractRetry (s : List Char) : List Char :=
  ensureSemi (fenceCandidate s)

/-- Python's substring test (the in operator on line 105), case sensitive. -/
def containsSub (pat : List Char) : List Char → Bool
  | [] => pat.isEmpty
  | c :: cs => pat.isPrefixOf (c :: cs) || containsSub pat cs

/-- First retry-trigger substring on line 105. -/
def unknownColumnPat : List Char := "Unknown column".data

/-- Second retry-trigger substring on line 105. -/
def doesntExistPat : List Char := "doesn't exist".data

/-- Line 105: the condition under which the failed first execution is
retried. -/
def isRecoverable (m : List Char) : Bool :=
  containsSub unknownColumnPat m || containsSub doesntExistPat m

/- ===== The pipeline function dataBase (lines 51-139) =====

   The function is embedded as a pure function over an environment that
   records the outcome of every external call the source makes: the
   SSHTunnelForwarder constructor (lines 54-62), server.start() (line 63),
   db.get_table_info() (line 70, the connection set up by from_uri fails
   here if at all), the table-name listing of lines 72-74, chain.invoke
   (lines 80/111) and db.run on a synthesized query (lines 98/126).
   st.success / st.error / st.info / st.code calls become events in an
   ordered trace, as do the external calls themselves, so that claims
   about ordering and counts can be stated. -/

/-- The environment-provided configuration of lines 16-22 and 156.  Each
os.getenv result is None (none) when the key is absent.  The source never
validates these values; they are only interpolated into strings. -/
structure Config where
  sshHost : Option (List Char)
  sshUser : Option (List Char)
  sshPassword : Option (List Char)
  dbUser : Option (List Char)
  dbPassword : Option (List Char)
  dbName : Option (List Char)
  apiKey : Option (List Char)

/-- Python str() of an optional value, as an f-string would render it:
None becomes the four-letter string None. -/
def optStr : Option (List Char) → List Char
  | some s => s
  | none => "None".data

/-- Outcomes of the external calls made during one invocation of dataBase.
An error value is the str() of the exception the call raises. -/
structure Env where
  /-- Outcome of the SSHTunnelForwarder constructor (lines 54-62); the
  variable server is assigned only when this succeeds. -/
  ctorOk : Except (List Char) Unit
  /-- Outcome of server.start() (line 63). -/
  startOk : Except (List Char) Unit
  /-- Outcome of db.get_table_info() (line 70); connection failures of the
  engine created on lines 66-68 surface here. -/
  schema : Except (List Char) (List Char)
  /-- Outcome of the table-name listing (lines 72-74): the list produced by
  the comprehension over db.run("SHOW TABLES;"), or the exception. -/
  tables : Except (List Char) (List (List Char))
  /-- chain.invoke (lines 80-84 and 111-115) as a function of the three
  request fields question, table_info, top_k; returns str(res). -/
  invoke : List Char → List Char → List Char → Except (List Char) (List Char)
  /-- db.run on a synthesized query (lines 98 and 126). -/
  run : List Char → Except (List Char) (List Char)

/-- Lines 71-76: the candidate-table string, with the sentinel on failure. -/
def topKOf (env : Env) : List Char :=
  match env.tables with
  | .ok names => List.intercalate (", ".data) names
  | .error _ => "All database tables".data

/-- Line 103: the message shown for a failed first execution. -/
def sqlExecErrMsg (m : List Char) : List Char := "SQL Execution Error: ".data ++ m

/-- Line 133: the message shown by the top-level handler. -/
def topErrMsg (e : List Char) : List Char := "❌ Error: ".data ++ e

/-- Line 64: the tunnel-established message (local bind port is fixed 3307). -/
def tunnelOpenedMsg (cfg : Config) : List Char :=
  "SSH tunnel established: 127.0.0.1:3307 → ".data ++ optStr cfg.sshHost ++ ":3306".data

/-- Line 139: the tunnel-closed message. -/
def tunnelClosedMsg : List Char := "SSH tunnel closed.".data

/-- Lines 106-110: the composite question used for the retry synthesis. -/
def followUp (m schema q : List Char) : List Char :=
  "The previous query failed with error: ".data ++ m ++
    ". Rewrite the SQL correctly using only existing columns from this schema:\n".data ++
    schema ++ "\nQuestion: ".data ++ q

/-- Observable events of one invocation of dataBase, in order. -/
inductive Ev where
  /-- The SSHTunnelForwarder constructor is entered (line 54). -/
  | ctorAttempt : Ev
  /-- server.start() returned (line 63). -/
  | tunnelOpened : Ev
  /-- server.stop() is called (line 138). -/
  | tunnelClosed : Ev
  /-- st.success / st.info text. -/
  | info : List Char → Ev
  /-- st.error text. -/
  | errorShown : List Char → Ev
  /-- st.code text (lines 95 and 124). -/
  | codeShown : List Char → Ev
  /-- chain.invoke is called with these question / table_info / top_k. -/
  | invoked : List Char → List Char → List Char → Ev
  /-- db.run is called on this synthesized query. -/
  | ran : List Char → Ev
deriving DecidableEq

/-- The outcome of one invocation: the ordered events and the returned
value (some rows on a return on line 99 or 127, none on line 134). -/
structure Trace where
  events : List Ev
  result : Option (List Char)
deriving DecidableEq

/-- The body of the outer try after a successful constructor: lines 63-130.
The pair holds the events and either the returned rows or the exception
that escapes to the outer handler. -/
def pipelineBody (cfg : Config) (env : Env) (q : List Char) :
    List Ev × Except (List Char) (List Char) :=
  match env.startOk with
  | .error e => ([], .error e)
  | .ok _ =>
    match env.schema with
    | .error e => ([Ev.tunnelOpened, Ev.info (tunnelOpenedMsg cfg)], .error e)
    | .ok schema =>
      match env.invoke q schema (topKOf env) with
      | .error e =>
        ([Ev.tunnelOpened, Ev.info (tunnelOpenedMsg cfg),
          Ev.invoked q schema (topKOf env)], .error e)
      | .ok resText =>
        match env.run (extractInitial resText) with
        | .ok rows =>
          ([Ev.tunnelOpened, Ev.info (tunnelOpenedMsg cfg),
            Ev.invoked q schema (topKOf env),
            Ev.codeShown (extractInitial resText), Ev.ran (extractInitial resText)],
           .ok rows)
        | .error m =>
          if isRecoverable m then
            match env.invoke (followUp m schema q) schema (topKOf env) with
            | .error e =>
              ([Ev.tunnelOpened, Ev.info (tunnelOpenedMsg cfg),
                Ev.invoked q schema (topKOf env),
                Ev.codeShown (extractInitial resText), Ev.ran (extractInitial resText),
                Ev.errorShown (sqlExecErrMsg m),
                Ev.invoked (followUp m schema q) schema (topKOf env)], .error e)
            | .ok retryText =>
              match env.run (extractRetry retryText) with
              | .ok rows =>
                ([Ev.tunnelOpened, Ev.info (tunnelOpenedMsg cfg),
                  Ev.invoked q schema (topKOf env),
                  Ev.codeShown (extractInitial resText), Ev.ran (extractInitial resText),
                  Ev.errorShown (sqlExecErrMsg m),
                  Ev.invoked (followUp m schema q) schema (topKOf env),
                  Ev.codeShown (extractRetry retryText), Ev.ran (extractRetry retryText)],
                 .ok rows)
              | .error m2 =>
                ([Ev.tunnelOpened, Ev.info (tunnelOpenedMsg cfg),
                  Ev.invoked q schema (topKOf env),
                  Ev.codeShown (extractInitial resText), Ev.ran (extractInitial resText),
                  Ev.errorShown (sqlExecErrMsg m),
                  Ev.invoked (followUp m schema q) schema (topKOf env),
                  Ev.codeShown (extractRetry retryText), Ev.ran (extractRetry retryText)],
                 .error m2)
          else
            ([Ev.tunnelOpened, Ev.info (tunnelOpenedMsg cfg),
              Ev.invoked q schema (topKOf env),
              Ev.codeShown (extractInitial resText), Ev.ran (extractInitial resText),
              Ev.errorShown (sqlExecErrMsg m)], .error m)

/-- Lines 53-130: the whole try body.  When the constructor itself raises,
server keeps its initial value None. -/
def tryBody (cfg : Config) (env : Env) (q : List Char) :
    List Ev × Except (List Char) (List Char) :=
  match env.ctorOk with
  | .error e => ([Ev.ctorAttempt], .error e)
  | .ok _ =>
    let p := pipelineBody cfg env q
    (Ev.ctorAttempt :: p.1, p.2)

/-- Lines 136-139: the finally block calls server.stop() only when server
is not None, i.e. only when the constructor succeeded. -/
def closeEvs (env : Env) : List Ev :=
  match env.ctorOk with
  | .ok _ => [Ev.tunnelClosed, Ev.info tunnelClosedMsg]
  | .error _ => []

/-- Lines 51-139: the function dataBase.  Any exception escaping the try
body is caught on line 132, shown, and turned into a None result; the
finally block then runs before the function returns. -/
def dataBase (cfg : Config) (env : Env) (q : List Char) : Trace :=
  let p := tryBody cfg env q
  match p.2 with
  | .ok rows => { events := p.1 ++ closeEvs env, result := some rows }
  | .error e =>
    { events := p.1 ++ [Ev.errorShown (topErrMsg e)] ++ closeEvs env, result := none }

/-- Is the event a chain.invoke call? -/
def isInvoked : Ev → Bool
  | .invoked _ _ _ => true
  | _ => false

/-- Is the event a db.run call on a synthesized query? -/
def isRan : Ev → Bool
  | .ran _ => true
  | _ => false

/-- Is the event an st.error call? -/
def isErrorShown : Ev → Bool
  | .errorShown _ => true
  | _ => false

/-- How many synthesis calls the invocation made. -/
def invokeCount (t : Trace) : Nat := t.events.countP isInvoked

/-- How many query executions the invocation attempted. -/
def runCount (t : Trace) : Nat := t.events.countP isRan

/-- How many times the tunnel was opened. -/
def openCount (t : Trace) : Nat := t.events.countP (· == Ev.tunnelOpened)

/-- How many times server.stop() was called. -/
def closeCount (t : Trace) : Nat := t.events.countP (· == Ev.tunnelClosed)

/-- The texts of all st.error calls, in order. -/
def errorsShown (t : Trace) : List (List Char) :=
  t.events.filterMap fun e =>
    match e with
    | .errorShown m => some m
    | _ => none

/-- The st.error events occurring strictly before the first attempt to
construct the tunnel. -/
def errorsBeforeCtor (t : Trace) : List Ev :=
  (t.events.takeWhile fun e => !(e == Ev.ctorAttempt)).filter isErrorShown

/- ===== Spec-side definitions =====

   Definitions written from the wording of amended claims, to be compared
   with the definitions taken from the source. -/

/-- Spec wording: the candidate is the trimmed inner content of the first
correctly fenced block when one exists, otherwise the whole trimmed text. -/
def specCandidate (s : List Char) : List Char :=
  match findFenceInner s with
  | some inner => strip inner
  | none => strip s

/-- Amended wording of C1: the candidate with each occurrence of the
three-backtick substring removed in one left-to-right pass, then each
occurrence of the lowercase literal sql removed in one left-to-right pass,
re-trimmed, and with a semicolon appended when none is already last. -/
def specInitialExtract (s : List Char) : List Char :=
  ensureSemi (strip (removeAll sqlPat (removeAll closePat (specCandidate s))))

/-- Amended wording of C2: the retry path searches for the fenced block,
trims, and ensures the terminator, with no stripping pass. -/
def specRetryExtract (s : List Char) : List Char :=
  ensureSemi (specCandidate s)

/-- Does the string end with exactly one semicolon (one semicolon that is
not preceded by another one)? -/
def endsWithExactlyOneSemi (s : List Char) : Bool :=
  match s.reverse with
  | ';' :: rest => !(rest.head? == some ';')
  | _ => false

/-- The backtick character (U+0060). -/
def btChar : Char := Char.ofNat 96

/- ===== Concrete data for witnesses and counterexamples ===== -/

/-- A configuration with every environment key absent. -/
def cfgEmpty : Config := ⟨none, none, none, none, none, none, none⟩

/-- A sample question. -/
def qSample : List Char := "list all customers".data

/-- A sample schema text. -/
def schemaSample : List Char := "CREATE TABLE customers (id INT, name TEXT)".data

/-- An environment where the tunnel constructor itself raises; every later
stage would succeed. -/
def envCtorFail : Env where
  ctorOk := .error ("SSH gateway unreachable".data)
  startOk := .ok ()
  schema := .ok schemaSample
  tables := .ok ["customers".data]
  invoke := fun _ _ _ => .ok ("SELECT name FROM customers".data)
  run := fun _ => .ok ("rows".data)

/-- An environment where everything succeeds except that every query
execution fails with a non-recoverable message. -/
def envRunFail : Env where
  ctorOk := .ok ()
  startOk := .ok ()
  schema := .ok schemaSample
  tables := .ok ["customers".data]
  invoke := fun _ _ _ => .ok ("SELECT name FROM customers".data)
  run := fun _ => .error ("Access denied for user abc".data)

/-- An environment where only the table-name listing fails; everything
else succeeds. -/
def envTblFail : Env where
  ctorOk := .ok ()
  startOk := .ok ()
  schema := .ok schemaSample
  tables := .error ("permission denied".data)
  invoke := fun _ _ _ => .ok ("SELECT name FROM customers".data)
  run := fun _ => .ok ("rows".data)

/- ===== Helper lemmas ===== -/

lemma closePat_eq : closePat = [btChar, btChar, btChar] := by decide

lemma openPat_eq : openPat = [btChar, btChar, btChar, 's', 'q', 'l'] := by decide

lemma lowerChar_bt : lowerChar btChar = btChar := by decide

lemma lowerChar_s : lowerChar 's' = 's' := by decide

lemma lowerChar_q : lowerChar 'q' = 'q' := by decide

lemma lowerChar_l : lowerChar 'l' = 'l' := by decide

/-- The whole string after ensureSemi ends with a semicolon. -/
lemma endsWithSemi_ensureSemi (s : List Char) : endsWithSemi (ensureSemi s) = true := by
  unfold ensureSemi
  split
  · assumption
  · simp [endsWithSemi, List.getLast?_append_cons]

/-- A character that does not fold to a backtick cannot begin a match of
the closing delimiter. -/
lemma matchCI_closePat_cons (c : Char) (cs : List Char) (hc : lowerChar c ≠ btChar) :
    matchCI closePat (c :: cs) = false := by
  rw [closePat_eq]
  simp [matchCI, hc]

/-- A character that does not fold to a backtick cannot begin a match of
the opening delimiter. -/
lemma matchCI_openPat_cons (c : Char) (cs : List Char) (hc : lowerChar c ≠ btChar) :
    matchCI openPat (c :: cs) = false := by
  rw [openPat_eq]
  simp [matchCI, hc]

/-- The lazy group closes at the first closing delimiter: content before an
explicit closing fence, when the content has no character folding to a
backtick. -/
lemma splitAtClose_append (b rest : List Char)
    (hb : ∀ c ∈ b, lowerChar c ≠ btChar) :
    splitAtClose (b ++ (closePat ++ rest)) = some b := by
  induction b with
  | nil =>
    rw [List.nil_append, closePat_eq]
    simp [splitAtClose, matchCI, lowerChar_bt]
    decide
  | cons c b ih =>
    have hc : lowerChar c ≠ btChar := hb c (List.mem_cons_self c _)
    have hb' : ∀ x ∈ b, lowerChar x ≠ btChar := fun x hx => hb x (List.mem_cons_of_mem _ hx)
    rw [List.cons_append]
    rw [splitAtClose]
    rw [matchCI_closePat_cons c _ hc]
    simp [ih hb']

/-- The opening delimiter matches at an occurrence of itself. -/
lemma matchCI_openPat (t : List Char) :
    matchCI openPat (btChar :: btChar :: btChar :: 's' :: 'q' :: 'l' :: t) = true := by
  rw [openPat_eq]
  simp [matchCI, lowerChar_bt, lowerChar_s, lowerChar_q, lowerChar_l]

/-- The regex search finds the first fenced block: with a backtick-free
leading segment and a backtick-free inner content, the group is exactly
that inner content, whatever comes after the closing fence. -/
lemma findFenceInner_append (pre b rest : List Char)
    (hpre : ∀ c ∈ pre, lowerChar c ≠ btChar) (hb : ∀ c ∈ b, lowerChar c ≠ btChar) :
    findFenceInner (pre ++ (openPat ++ (b ++ (closePat ++ rest)))) = some b := by
  induction pre with
  | nil =>
    rw [List.nil_append, openPat_eq]
    simp only [List.cons_append, List.nil_append]
    rw [findFenceInner]
    rw [matchCI_openPat]
    have hdrop :
        List.drop 5 (btChar :: btChar :: 's' :: 'q' :: 'l' :: (b ++ (closePat ++ rest)))
          = b ++ (closePat ++ rest) := rfl
    simp [hdrop, splitAtClose_append b rest hb]
  | cons c pre ih =>
    have hc : lowerChar c ≠ btChar := hpre c (List.mem_cons_self c _)
    have hpre' : ∀ x ∈ pre, lowerChar x ≠ btChar :=
      fun x hx => hpre x (List.mem_cons_of_mem _ hx)
    rw [List.cons_append]
    rw [findFenceInner]
    rw [matchCI_openPat_cons c _ hc]
    simp [ih hpre']

/-- dataBase observes its environment only through the outcomes of the
external calls and the candidate-table string. -/
lemma dataBase_congr (cfg : Config) (env env' : Env) (q : List Char)
    (hc : env.ctorOk = env'.ctorOk) (hs : env.startOk = env'.startOk)
    (hsc : env.schema = env'.schema) (ht : topKOf env = topKOf env')
    (hi : env.invoke = env'.invoke) (hr : env.run = env'.run) :
    dataBase cfg env q = dataBase cfg env' q := by
  unfold dataBase tryBody pipelineBody closeEvs
  rw [hc, hs, hsc, ht, hi, hr]

/- ===== Claim theorems ===== -/

/-- C1, counterexample: the initial extraction does not always end with
exactly one trailing semicolon (a pre-existing double semicolon survives),
a literal backtick sequence can survive the stripping (single backticks are
not removed, only the three-backtick substring is), and a literal sql
substring can survive it (the replace pass does not rescan). -/
theorem c1_counterexample :
    extractInitial ("SELECT 1;;".data) = ("SELECT 1;;".data) ∧
    endsWithExactlyOneSemi (extractInitial ("SELECT 1;;".data)) = false ∧
    extractInitial ("`a`".data) = ("`a`;".data) ∧
    extractInitial ("ssqlql".data) = ("sql;".data) := by decide

/-- C1, amended: for every raw model response, the initial extraction is
the fenced (or fallback) trimmed candidate with one left-to-right removal
pass of the three-backtick substring, then one of the lowercase literal
sql, re-trimmed, with a semicolon appended only when none is already last;
the result always ends with a semicolon (though not necessarily exactly
one). -/
theorem c1_initial_extraction_amended (s : List Char) :
    extractInitial s = specInitialExtract s ∧ endsWithSemi (extractInitial s) = true :=
  ⟨rfl, endsWithSemi_ensureSemi _⟩

/-- C2, counterexample: the retry-path extraction does not apply the same
parsing policy as the initial attempt: the backtick and sql stripping pass
is missing, so the two paths disagree on a response whose text contains the
substring sql. -/
theorem c2_counterexample :
    extractRetry ("abcsql".data) = ("abcsql;".data) ∧
    extractInitial ("abcsql".data) = ("abc;".data) ∧
    extractRetry ("abcsql".data) ≠ extractInitial ("abcsql".data) := by decide

/-- C2, amended: the retry-path extraction applies the same fenced-block
search, trimming and terminator step as the initial attempt, but omits the
backtick and sql stripping pass entirely; its result always ends with a
semicolon. -/
theorem c2_retry_extraction_amended (s : List Char) :
    extractRetry s = specRetryExtract s ∧ endsWithSemi (extractRetry s) = true :=
  ⟨rfl, endsWithSemi_ensureSemi _⟩

/-- C9: the terminator normalization shared by the initial path (lines
92-93) and the retry path (lines 121-122) leaves a string that already ends
with a semicolon unchanged, and is idempotent. -/
theorem c9_terminator_idempotent (s : List Char) :
    (endsWithSemi s = true → ensureSemi s = s) ∧
    ensureSemi (ensureSemi s) = ensureSemi s := by
  constructor
  · intro h
    simp [ensureSemi, h]
  · have h2 := endsWithSemi_ensureSemi s
    rw [ensureSemi]
    rw [h2]
    simp

/-- C9 witness: the theorem applied at a concrete query already ending in a
semicolon. -/
theorem c9_witness : ensureSemi ("SELECT 1;".data) = ("SELECT 1;".data) :=
  (c9_terminator_idempotent ("SELECT 1;".data)).1 (by decide)

/-- C10: when the response contains a fenced block (backtick-free inner
content after a backtick-free preamble), the extraction takes the inner
content of the first such block, and everything after that block's closing
fence - in particular any later fenced block - is ignored. -/
theorem c10_first_block_wins (pre b rest rest' : List Char)
    (hpre : ∀ c ∈ pre, lowerChar c ≠ btChar) (hb : ∀ c ∈ b, lowerChar c ≠ btChar) :
    findFenceInner (pre ++ (openPat ++ (b ++ (closePat ++ rest)))) = some b ∧
    extractInitial (pre ++ (openPat ++ (b ++ (closePat ++ rest))))
      = extractInitial (pre ++ (openPat ++ (b ++ (closePat ++ rest')))) := by
  refine ⟨findFenceInner_append pre b rest hpre hb, ?_⟩
  unfold extractInitial fenceCandidate
  rw [findFenceInner_append pre b rest hpre hb, findFenceInner_append pre b rest' hpre hb]

/-- C10 witness: a response with two fenced blocks extracts the first one,
and the extraction is unchanged when the second block is deleted. -/
theorem c10_witness :
    findFenceInner ("Answer:\n".data ++ (openPat ++ ("SELECT 1".data ++
        (closePat ++ "\n```sql\nSELECT 2\n```".data)))) = some ("SELECT 1".data) ∧
    extractInitial ("Answer:\n".data ++ (openPat ++ ("SELECT 1".data ++
        (closePat ++ "\n```sql\nSELECT 2\n```".data))))
      = extractInitial ("Answer:\n".data ++ (openPat ++ ("SELECT 1".data ++
        (closePat ++ "".data)))) :=
  c10_first_block_wins _ _ _ _ (by decide) (by decide)

/-- C4: per question, at most two synthesis calls and at most two query
executions ever occur, over every possible outcome of the external calls;
in particular a failure of the second execution triggers no third attempt. -/
theorem c4_at_most_two_attempts (cfg : Config) (env : Env) (q : List Char) :
    invokeCount (dataBase cfg env q) ≤ 2 ∧ runCount (dataBase cfg env q) ≤ 2 := by
  rcases h1 : env.ctorOk with e1 | u1
  · simp [dataBase, tryBody, pipelineBody, closeEvs, h1, invokeCount, runCount,
      List.countP_cons, List.countP_append, List.countP_nil, isInvoked, isRan]
  · rcases h2 : env.startOk with e2 | u2
    · simp [dataBase, tryBody, pipelineBody, closeEvs, h1, h2, invokeCount, runCount,
        List.countP_cons, List.countP_append, List.countP_nil, isInvoked, isRan]
    · rcases h3 : env.schema with e3 | s
      · simp [dataBase, tryBody, pipelineBody, closeEvs, h1, h2, h3, invokeCount, runCount,
          List.countP_cons, List.countP_append, List.countP_nil, isInvoked, isRan]
      · rcases h4 : env.invoke q s (topKOf env) with e4 | r
        · simp [dataBase, tryBody, pipelineBody, closeEvs, h1, h2, h3, h4,
            invokeCount, runCount,
            List.countP_cons, List.countP_append, List.countP_nil, isInvoked, isRan]
        · rcases h5 : env.run (extractInitial r) with m | rows
          · by_cases hm : isRecoverable m
            · rcases h6 : env.invoke (followUp m s q) s (topKOf env) with e6 | r2
              · simp [dataBase, tryBody, pipelineBody, closeEvs, h1, h2, h3, h4, h5, hm, h6,
                  invokeCount, runCount,
                  List.countP_cons, List.countP_append, List.countP_nil, isInvoked, isRan]
              · rcases h7 : env.run (extractRetry r2) with m2 | rows2 <;>
                  simp [dataBase, tryBody, pipelineBody, closeEvs, h1, h2, h3, h4, h5, hm,
                    h6, h7, invokeCount, runCount,
                    List.countP_cons, List.countP_append, List.countP_nil, isInvoked, isRan]
            · simp [dataBase, tryBody, pipelineBody, closeEvs, h1, h2, h3, h4, h5, hm,
                invokeCount, runCount,
                List.countP_cons, List.countP_append, List.countP_nil, isInvoked, isRan]
          · simp [dataBase, tryBody, pipelineBody, closeEvs, h1, h2, h3, h4, h5,
              invokeCount, runCount,
              List.countP_cons, List.countP_append, List.countP_nil, isInvoked, isRan]

/-- C5, counterexample: when the SSHTunnelForwarder constructor itself
raises, the variable server is still None, so the finally block never calls
server.stop(): on that exit path the close count is 0, not 1. -/
theorem c5_counterexample :
    envCtorFail.ctorOk = Except.error ("SSH gateway unreachable".data) ∧
    closeCount (dataBase cfgEmpty envCtorFail qSample) = 0 := by decide

/-- C5, amended: at most one tunnel is ever opened per invocation, and
server.stop() is called exactly once on every exit path on which the
tunnel object was constructed (even when start or any later stage failed);
when the constructor itself raises, no close is attempted and no tunnel
was ever open. -/
theorem c5_tunnel_close_amended (cfg : Config) (env : Env) (q : List Char) :
    openCount (dataBase cfg env q) ≤ 1 ∧
    closeCount (dataBase cfg env q) =
      (match env.ctorOk with | Except.ok _ => 1 | Except.error _ => 0) := by
  rcases h1 : env.ctorOk with e1 | u1
  · simp [dataBase, tryBody, pipelineBody, closeEvs, h1, openCount, closeCount,
      List.countP_cons, List.countP_append, List.countP_nil]
  · rcases h2 : env.startOk with e2 | u2
    · simp [dataBase, tryBody, pipelineBody, closeEvs, h1, h2, openCount, closeCount,
        List.countP_cons, List.countP_append, List.countP_nil]
    · rcases h3 : env.schema with e3 | s
      · simp [dataBase, tryBody, pipelineBody, closeEvs, h1, h2, h3, openCount, closeCount,
          List.countP_cons, List.countP_append, List.countP_nil]
      · rcases h4 : env.invoke q s (topKOf env) with e4 | r
        · simp [dataBase, tryBody, pipelineBody, closeEvs, h1, h2, h3, h4,
            openCount, closeCount, List.countP_cons, List.countP_append, List.countP_nil]
        · rcases h5 : env.run (extractInitial r) with m | rows
          · by_cases hm : isRecoverable m = true
            · rcases h6 : env.invoke (followUp m s q) s (topKOf env) with e6 | r2
              · simp [dataBase, tryBody, pipelineBody, closeEvs, h1, h2, h3, h4, h5, hm, h6,
                  openCount, closeCount, List.countP_cons, List.countP_append, List.countP_nil]
              · rcases h7 : env.run (extractRetry r2) with m2 | rows2 <;>
                  simp [dataBase, tryBody, pipelineBody, closeEvs, h1, h2, h3, h4, h5, hm,
                    h6, h7, openCount, closeCount,
                    List.countP_cons, List.countP_append, List.countP_nil]
            · simp [dataBase, tryBody, pipelineBody, closeEvs, h1, h2, h3, h4, h5, hm,
                openCount, closeCount, List.countP_cons, List.countP_append, List.countP_nil]
          · simp [dataBase, tryBody, pipelineBody, closeEvs, h1, h2, h3, h4, h5,
              openCount, closeCount, List.countP_cons, List.countP_append, List.countP_nil]

/-- C7, counterexample: with every configuration key absent (SSH_HOST in
particular is None), the pipeline still proceeds straight to the tunnel
constructor: the very first event is the connection attempt and no error
message of any kind is surfaced before it. -/
theorem c7_counterexample :
    cfgEmpty.sshHost = none ∧
    (dataBase cfgEmpty envCtorFail qSample).events.head? = some Ev.ctorAttempt ∧
    errorsBeforeCtor (dataBase cfgEmpty envCtorFail qSample) = [] := by decide

/-- C7, amended: the source performs no configuration validation at all:
for every configuration (in particular with required keys absent) the first
observable event of the pipeline is the attempt to construct the tunnel, so
no configuration error is ever surfaced before a connection attempt; a
missing key only manifests as a failure of the connection attempt itself,
caught by the generic top-level handler. -/
theorem c7_no_config_check_amended (cfg : Config) (env : Env) (q : List Char) :
    (dataBase cfg env q).events.head? = some Ev.ctorAttempt := by
  rcases h1 : env.ctorOk with e1 | u1
  · simp [dataBase, tryBody, closeEvs, h1]
  · rcases h2 : (pipelineBody cfg env q).2 with e | r <;>
      simp [dataBase, tryBody, closeEvs, h1, h2]

/-- C6, counterexample: a failure in the pipeline (here: the table-name
listing raises) need not reach the top-level handler: the run returns a
normal result, no error message is ever shown, and the function does not
return None - refuting the claim for recovered failures. -/
theorem c6_counterexample :
    envTblFail.tables = Except.error ("permission denied".data) ∧
    (dataBase cfgEmpty envTblFail qSample).result = some ("rows".data) ∧
    errorsShown (dataBase cfgEmpty envTblFail qSample) = [] := by decide

/-- C6, amended: every failure that reaches the top-level handler (any
exception escaping the try body) produces a visible error message and
makes the function return None; no exception propagates out of dataBase.
Failures recovered inside the body (a table-listing failure, or a
recoverable first execution whose retry succeeds) do not reach the handler
and can yield a normal result. -/
theorem c6_top_handler_amended (cfg : Config) (env : Env) (q e : List Char)
    (h : (tryBody cfg env q).2 = Except.error e) :
    (dataBase cfg env q).result = none ∧
    topErrMsg e ∈ errorsShown (dataBase cfg env q) := by
  constructor
  · simp [dataBase, h]
  · simp [dataBase, h, errorsShown, List.filterMap_append]

/-- C6 witness: the amended theorem applied to a run whose execution fails
with a non-recoverable message. -/
theorem c6_witness :
    (dataBase cfgEmpty envRunFail qSample).result = none ∧
    topErrMsg ("Access denied for user abc".data) ∈
      errorsShown (dataBase cfgEmpty envRunFail qSample) :=
  c6_top_handler_amended cfgEmpty envRunFail qSample
    ("Access denied for user abc".data) (by decide)

/-- C3: after a failed first execution, the retry synthesis happens if and
only if the error message contains, case-sensitively, Unknown column or
doesn't exist; for any other message there is exactly one execution, no
retry, and the original error is re-raised, reaching the top-level handler
(its message is shown and the function returns None). -/
theorem c3_retry_condition (cfg : Config) (env : Env) (q s r m : List Char)
    (h1 : env.ctorOk = .ok ()) (h2 : env.startOk = .ok ())
    (h3 : env.schema = .ok s)
    (h4 : env.invoke q s (topKOf env) = .ok r)
    (h5 : env.run (extractInitial r) = .error m) :
    invokeCount (dataBase cfg env q) = (if isRecoverable m then 2 else 1) ∧
    (isRecoverable m = false →
      runCount (dataBase cfg env q) = 1 ∧
      (dataBase cfg env q).result = none ∧
      topErrMsg m ∈ errorsShown (dataBase cfg env q)) := by
  cases hm : isRecoverable m with
  | false =>
    refine ⟨?_, fun _ => ⟨?_, ?_, ?_⟩⟩
    · simp [dataBase, tryBody, pipelineBody, closeEvs, h1, h2, h3, h4, h5, hm,
        invokeCount, List.countP_cons, List.countP_append, List.countP_nil, isInvoked]
    · simp [dataBase, tryBody, pipelineBody, closeEvs, h1, h2, h3, h4, h5, hm,
        runCount, List.countP_cons, List.countP_append, List.countP_nil, isRan]
    · simp [dataBase, tryBody, pipelineBody, closeEvs, h1, h2, h3, h4, h5, hm]
    · simp [dataBase, tryBody, pipelineBody, closeEvs, h1, h2, h3, h4, h5, hm,
        errorsShown, List.filterMap_append]
  | true =>
    refine ⟨?_, fun hf => ?_⟩
    · rcases h6 : env.invoke (followUp m s q) s (topKOf env) with e6 | r2
      · simp [dataBase, tryBody, pipelineBody, closeEvs, h1, h2, h3, h4, h5, hm, h6,
          invokeCount, List.countP_cons, List.countP_append, List.countP_nil, isInvoked]
      · rcases h7 : env.run (extractRetry r2) with m2 | rows2 <;>
          simp [dataBase, tryBody, pipelineBody, closeEvs, h1, h2, h3, h4, h5, hm, h6, h7,
            invokeCount, List.countP_cons, List.countP_append, List.countP_nil, isInvoked]
    · simp [hm] at hf

/-- C3 witness: the theorem applied to a run whose only execution fails
with a message matching neither retry substring: one synthesis call, one
execution, a None result. -/
theorem c3_witness :
    invokeCount (dataBase cfgEmpty envRunFail qSample) = 1 ∧
    runCount (dataBase cfgEmpty envRunFail qSample) = 1 ∧
    (dataBase cfgEmpty envRunFail qSample).result = none := by
  have h := c3_retry_condition cfgEmpty envRunFail qSample schemaSample
    ("SELECT name FROM customers".data) ("Access denied for user abc".data)
    rfl rfl rfl rfl rfl
  have hrec : isRecoverable ("Access denied for user abc".data) = false := by decide
  refine ⟨?_, (h.2 hrec).1, (h.2 hrec).2.1⟩
  have h1 := h.1
  rw [hrec] at h1
  simpa using h1

/-- C8: when the table-name listing fails, the sentinel string is used as
the candidate-table list, the rest of the run is entirely independent of
the listing failure (so the failure is never surfaced and never aborts the
request), and synthesis is still reached. -/
theorem c8_table_listing_fallback (cfg : Config) (env : Env) (q s e₁ e₂ : List Char)
    (h1 : env.ctorOk = .ok ()) (h2 : env.startOk = .ok ())
    (h3 : env.schema = .ok s) (h4 : env.tables = .error e₁) :
    topKOf env = "All database tables".data ∧
    dataBase cfg env q = dataBase cfg { env with tables := Except.error e₂ } q ∧
    1 ≤ invokeCount (dataBase cfg env q) := by
  have htop : topKOf env = "All database tables".data := by simp [topKOf, h4]
  have htop' : topKOf { env with tables := Except.error e₂ } = "All database tables".data := by
    simp [topKOf]
  refine ⟨htop, ?_, ?_⟩
  · exact dataBase_congr cfg env _ q rfl rfl rfl (by rw [htop, htop']) rfl rfl
  · rcases h5 : env.invoke q s ("All database tables".data) with e5 | r
    · simp [dataBase, tryBody, pipelineBody, closeEvs, h1, h2, h3, htop, h5,
        invokeCount, List.countP_cons, List.countP_append, List.countP_nil, isInvoked]
    · rcases h6 : env.run (extractInitial r) with m | rows
      · by_cases hm : isRecoverable m = true
        · rcases h7 : env.invoke (followUp m s q) s ("All database tables".data) with e7 | r2
          · simp [dataBase, tryBody, pipelineBody, closeEvs, h1, h2, h3, htop, h5, h6, hm,
              h7, invokeCount, List.countP_cons, List.countP_append, List.countP_nil,
              isInvoked]
          · rcases h8 : env.run (extractRetry r2) with m2 | rows2 <;>
              simp [dataBase, tryBody, pipelineBody, closeEvs, h1, h2, h3, htop, h5, h6, hm,
                h7, h8, invokeCount, List.countP_cons, List.countP_append, List.countP_nil,
                isInvoked]
        · simp [dataBase, tryBody, pipelineBody, closeEvs, h1, h2, h3, htop, h5, h6, hm,
            invokeCount, List.countP_cons, List.countP_append, List.countP_nil, isInvoked]
      · simp [dataBase, tryBody, pipelineBody, closeEvs, h1, h2, h3, htop, h5, h6,
          invokeCount, List.countP_cons, List.countP_append, List.countP_nil, isInvoked]

/-- C8 witness: the theorem applied to a run where only the table listing
fails: the sentinel is used, the trace is identical under a different
listing failure, and synthesis still happens. -/
theorem c8_witness :
    topKOf envTblFail = "All database tables".data ∧
    dataBase cfgEmpty envTblFail qSample
      = dataBase cfgEmpty { envTblFail with tables := Except.error ("timeout".data) } qSample ∧
    1 ≤ invokeCount (dataBase cfgEmpty envTblFail qSample) :=
  c8_table_listing_fallback cfgEmpty envTblFail qSample schemaSample
    ("permission denied".data) ("timeout".data) rfl rfl rfl rfl

end DatabaseFrontend
